import Mathlib

/-!
Verification of the model-registry, language-option and chat-client utilities
(`Code/user_info/option_textmodel.py`, `Code/user_info/option_language.py`,
`Code/llm/llm_client.py`).

The YAML document is modelled as an untyped `Val` tree (the spec treats the
YAML format as an already-parsed nesting of maps and lists).  Python dicts are
association lists; Python `None` and YAML `null` are both `Val.vnull`.  A
Python `bool` is a subclass of `int`, so `isinstance(v, int)` is true for
booleans; the embedding keeps `vbool` as a separate constructor and models the
subclass relation explicitly wherever the source calls `isinstance(v, int)`.
Exceptions become `Except Err`, with the exception class and message kept.
-/

/-- A parsed YAML/JSON-like value (Python object tree). -/
inductive Val where
  | vnull : Val
  | vbool (b : Bool) : Val
  | vint (n : Int) : Val
  | vstr (s : String) : Val
  | vlist (xs : List Val) : Val
  | vdict (xs : List (String × Val)) : Val

/-- Python `d.get(key, None)`: first binding of `key`, `None` when absent. -/
def dget (d : List (String × Val)) (k : String) : Val :=
  match d.find? (fun p => p.1 == k) with
  | some p => p.2
  | none => Val.vnull

/-- Python exceptions raised by the source: `TypeError`, `ValueError`, `KeyError`. -/
inductive Err where
  | typeError (msg : String) : Err
  | valueError (msg : String) : Err
  | keyError (msg : String) : Err
deriving DecidableEq, Repr

/-- `FeatureConfig` record (`option_textmodel.py`, `@dataclass(frozen=True)`). -/
structure FeatureConfig where
  supported : Bool
  model : Option String
  url : Option String
deriving DecidableEq, Repr

/-- `FeatureConfig.from_dict`: `supported` must be `bool`, `model` and `url`
must each be `str` or null/absent. -/
def FeatureConfig.from_dict (v : Val) (ctx : String) : Except Err FeatureConfig :=
  match v with
  | .vdict d =>
    match dget d "supported" with
    | .vbool supported =>
      match dget d "model" with
      | .vnull =>
        match dget d "url" with
        | .vnull => .ok ⟨supported, none, none⟩
        | .vstr url => .ok ⟨supported, none, some url⟩
        | _ => .error (.typeError (ctx ++ ".url must be str|null"))
      | .vstr model =>
        match dget d "url" with
        | .vnull => .ok ⟨supported, some model, none⟩
        | .vstr url => .ok ⟨supported, some model, some url⟩
        | _ => .error (.typeError (ctx ++ ".url must be str|null"))
      | _ => .error (.typeError (ctx ++ ".model must be str|null"))
    | _ => .error (.typeError (ctx ++ ".supported must be bool"))
  | _ => .error (.typeError (ctx ++ " must be a dict"))

/-- `ModelConfig` record (`option_textmodel.py`).  `dependence` is kept as the
checked string; `features` is the (insertion-ordered) feature map. -/
structure ModelConfig where
  id : Int
  name : String
  code : String
  dependence : String
  url_requirements : Bool
  base_url : Option String
  base_model : String
  charge_url : String
  docs_url : String
  features : List (String × FeatureConfig)
deriving DecidableEq, Repr

/-- Local helper `req_str` in `ModelConfig.from_dict`: the value must be a
non-empty `str` (`if not isinstance(v, str) or not v: raise`). -/
def req_str (d : List (String × Val)) (ctx key : String) : Except Err String :=
  match dget d key with
  | .vstr s =>
    if s.isEmpty then .error (.typeError (ctx ++ "." ++ key ++ " must be non-empty str"))
    else .ok s
  | _ => .error (.typeError (ctx ++ "." ++ key ++ " must be non-empty str"))

/-- Local helper `req_int`: `isinstance(v, int)`.  In Python `bool` is a
subclass of `int`, so a boolean passes the check and is used as 1 or 0. -/
def req_int (d : List (String × Val)) (ctx key : String) : Except Err Int :=
  match dget d key with
  | .vint n => .ok n
  | .vbool b => .ok (if b then 1 else 0)
  | _ => .error (.typeError (ctx ++ "." ++ key ++ " must be int"))

/-- Local helper `req_bool`: `isinstance(v, bool)` (an `int` is not a `bool`). -/
def req_bool (d : List (String × Val)) (ctx key : String) : Except Err Bool :=
  match dget d key with
  | .vbool b => .ok b
  | _ => .error (.typeError (ctx ++ "." ++ key ++ " must be bool"))

/-- The feature-dict comprehension in `ModelConfig.from_dict`: validate each
feature value in insertion order, aborting at the first failure. -/
def parseFeatures (fs : List (String × Val)) (ctx : String) :
    Except Err (List (String × FeatureConfig)) :=
  match fs with
  | [] => .ok []
  | (k, fv) :: rest => do
    let fc ← FeatureConfig.from_dict fv (ctx ++ ".features." ++ k)
    let tail ← parseFeatures rest ctx
    .ok ((k, fc) :: tail)

/-- The fixed required feature-key set
`{"mini_version", "deep_think", "json_output", "tool_calls"}`. -/
def requiredFeatureKeys : List String :=
  ["mini_version", "deep_think", "json_output", "tool_calls"]

/-- Python truthiness of an optional string: `None` and `""` are falsy. -/
def strTruthy : Option String → Bool
  | none => false
  | some s => !s.isEmpty

/-- The `dependence` check in `ModelConfig.from_dict`:
`if dependence not in ("OpenAI",): raise ValueError` — only the exact string
`"OpenAI"` passes. -/
def req_dependence (d : List (String × Val)) (ctx : String) : Except Err String :=
  match dget d "dependence" with
  | .vstr s =>
    if s == "OpenAI" then .ok s
    else .error (.valueError (ctx ++ ".dependence must be one of [OpenAI]"))
  | _ => .error (.valueError (ctx ++ ".dependence must be one of [OpenAI]"))

/-- The `base_url` check in `ModelConfig.from_dict`: absent/null or a string. -/
def opt_base_url (d : List (String × Val)) (ctx : String) : Except Err (Option String) :=
  match dget d "base_url" with
  | .vnull => .ok none
  | .vstr s => .ok (some s)
  | _ => .error (.typeError (ctx ++ ".base_url must be str|null"))

/-- The `features` check in `ModelConfig.from_dict`: must be a dict, each
value validated by `FeatureConfig.from_dict`. -/
def req_features (d : List (String × Val)) (ctx : String) :
    Except Err (List (String × FeatureConfig)) :=
  match dget d "features" with
  | .vdict fs => parseFeatures fs ctx
  | _ => .error (.typeError (ctx ++ ".features must be a dict"))

/-- `ModelConfig.from_dict`: field-by-field validation in source order, the
required-feature-keys check, and the `url_requirements` / `base_url`
cross-field check. -/
def ModelConfig.from_dict (v : Val) (ctx : String) : Except Err ModelConfig :=
  match v with
  | .vdict d => do
    let model_id ← req_int d ctx "id"
    let name ← req_str d ctx "name"
    let code ← req_str d ctx "code"
    let dependence ← req_dependence d ctx
    let url_requirements ← req_bool d ctx "url_requirements"
    let base_url ← opt_base_url d ctx
    let base_model ← req_str d ctx "base_model"
    let charge_url ← req_str d ctx "charge_url"
    let docs_url ← req_str d ctx "docs_url"
    let features ← req_features d ctx
    if requiredFeatureKeys.all (fun k => features.any (fun p => p.1 == k)) then
      if url_requirements && !strTruthy base_url then
        Except.error (.valueError (ctx ++ ": url_requirements=true but base_url is null/empty"))
      else
        Except.ok ⟨model_id, name, code, dependence, url_requirements, base_url,
          base_model, charge_url, docs_url, features⟩
    else
      Except.error (.valueError (ctx ++ ".features missing keys"))
  | _ => .error (.typeError (ctx ++ " must be a dict"))

/-- `ModelConfig.resolve_endpoint`: `feature=None` uses the base pair;
otherwise the feature must exist, be supported and have a truthy `model`;
its `url` falls back to `base_url` when falsy (`feat.url if feat.url else
self.base_url`). -/
def ModelConfig.resolve_endpoint (self : ModelConfig) (feature : Option String) :
    Except Err (Option String × String) :=
  match feature with
  | none => .ok (self.base_url, self.base_model)
  | some f =>
    match self.features.find? (fun p => p.1 == f) with
    | none => .error (.keyError ("Unknown feature " ++ f ++ " for model " ++ self.code))
    | some (_, feat) =>
      if !feat.supported then
        .error (.valueError ("Feature " ++ f ++ " not supported for model " ++ self.code))
      else
        match feat.model with
        | none =>
          .error (.valueError ("Feature " ++ f ++ " supported but model is null for " ++ self.code))
        | some m =>
          if m.isEmpty then
            .error (.valueError ("Feature " ++ f ++ " supported but model is null for " ++ self.code))
          else
            .ok ((if strTruthy feat.url then feat.url else self.base_url), m)

/-- `RegistryConfig` record. -/
structure RegistryConfig where
  version : Int
  models : List ModelConfig
deriving DecidableEq, Repr

/-- `ModelRegistry`: the config plus the two indices built in `__init__`. -/
structure ModelRegistry where
  cfg : RegistryConfig
  by_id : List (Int × ModelConfig)
  by_code : List (String × ModelConfig)
deriving DecidableEq, Repr

/-- The index-building loop of `ModelRegistry.__init__`: insert each model
into both indices, failing on a duplicate `id` or duplicate `code`. -/
def buildIndices (ms : List ModelConfig) (by_id : List (Int × ModelConfig))
    (by_code : List (String × ModelConfig)) :
    Except Err (List (Int × ModelConfig) × List (String × ModelConfig)) :=
  match ms with
  | [] => .ok (by_id, by_code)
  | m :: rest =>
    if (by_id.find? (fun p => p.1 == m.id)).isSome then
      .error (.valueError ("Duplicate model id: " ++ toString m.id))
    else if (by_code.find? (fun p => p.1 == m.code)).isSome then
      .error (.valueError ("Duplicate model code: " ++ m.code))
    else
      buildIndices rest (by_id ++ [(m.id, m)]) (by_code ++ [(m.code, m)])

/-- Code-point-lexicographic comparison of character lists (the order Python
uses to sort strings). -/
def strListLe : List Char → List Char → Bool
  | [], _ => true
  | _ :: _, [] => false
  | a :: as, b :: bs =>
    if a.toNat < b.toNat then true
    else if b.toNat < a.toNat then false
    else strListLe as bs

/-- Code-point-lexicographic comparison of strings. -/
def strLeB (a b : String) : Bool :=
  strListLe a.data b.data

/-- Insertion sort on strings, modelling Python `sorted` on a list of keys. -/
def insertSorted (s : String) : List String → List String
  | [] => [s]
  | t :: ts => if strLeB s t then s :: t :: ts else t :: insertSorted s ts

/-- Python `sorted(keys)`. -/
def sortStrings (l : List String) : List String :=
  l.foldr insertSorted []

/-- `tuple(sorted(m.features.keys()))` for one model. -/
def featureKeySig (m : ModelConfig) : List String :=
  sortStrings (m.features.map Prod.fst)

/-- `ModelRegistry.__init__`: build the two indices, then the global
feature-key consistency check: the set `{tuple(sorted(m.features.keys()))}`
over all models must have exactly one element. -/
def ModelRegistry.init (cfg : RegistryConfig) : Except Err ModelRegistry := do
  let idx ← buildIndices cfg.models [] []
  if ((cfg.models.map featureKeySig).dedup).length == 1 then
    .ok ⟨cfg, idx.1, idx.2⟩
  else
    .error (.valueError "Inconsistent feature keys across models")

/-- The per-entry loop of `ModelRegistry.load`:
`[ModelConfig.from_dict(m, ctx=f"models[i]") for i, m in enumerate(models_raw)]`. -/
def parseModels (ms : List Val) (i : Nat) : Except Err (List ModelConfig) :=
  match ms with
  | [] => .ok []
  | m :: rest => do
    let mc ← ModelConfig.from_dict m ("models[" ++ toString i ++ "]")
    let tail ← parseModels rest (i + 1)
    .ok (mc :: tail)

/-- `ModelRegistry.load`, from the parsed document onward (reading the file
and `yaml.safe_load` are external I/O; the spec treats the document as
already parsed): the root must be a dict with an `int` `version` and a list
`models`; every entry is validated, then `__init__` runs. -/
def ModelRegistry.load (data : Val) : Except Err ModelRegistry :=
  match data with
  | .vdict d =>
    match dget d "version" with
    | .vint version =>
      match dget d "models" with
      | .vlist ms => do
        let models ← parseModels ms 0
        ModelRegistry.init ⟨version, models⟩
      | _ => .error (.typeError "models must be a list")
    | .vbool b =>
      match dget d "models" with
      | .vlist ms => do
        let models ← parseModels ms 0
        ModelRegistry.init ⟨if b then 1 else 0, models⟩
      | _ => .error (.typeError "models must be a list")
    | _ => .error (.typeError "version must be int")
  | _ => .error (.typeError "YAML root must be a dict")

/-- `ModelRegistry.get_by_code`: exact lookup, `KeyError` on a miss. -/
def ModelRegistry.get_by_code (r : ModelRegistry) (code : String) : Except Err ModelConfig :=
  match r.by_code.find? (fun p => p.1 == code) with
  | some p => .ok p.2
  | none => .error (.keyError ("Unknown model code: " ++ code))

/-- `ModelRegistry.get_by_id`: exact lookup, `KeyError` on a miss. -/
def ModelRegistry.get_by_id (r : ModelRegistry) (model_id : Int) : Except Err ModelConfig :=
  match r.by_id.find? (fun p => p.1 == model_id) with
  | some p => .ok p.2
  | none => .error (.keyError ("Unknown model id: " ++ toString model_id))

/-- `ModelRegistry.resolve`: look up by code, delegate to `resolve_endpoint`. -/
def ModelRegistry.resolve (r : ModelRegistry) (code : String) (feature : Option String) :
    Except Err (Option String × String) := do
  let m ← r.get_by_code code
  m.resolve_endpoint feature

/-!
Spec-side (declarative) characterization of document validity, written from
the specification text for the refinement claims.  These predicates are
compared with `ModelRegistry.load` by theorem, never used inside it.
-/

/-- Spec side: the value passes Python `isinstance(v, int)` (booleans do,
since `bool` is a subclass of `int`). -/
def isIntPy : Val → Bool
  | .vint _ => true
  | .vbool _ => true
  | _ => false

/-- Spec side: the integer value of an `isinstance(v, int)` value. -/
def pyInt : Val → Int
  | .vint n => n
  | .vbool b => if b then 1 else 0
  | _ => 0

/-- Spec side: a non-empty string value. -/
def isNonEmptyStr : Val → Bool
  | .vstr s => !s.isEmpty
  | _ => false

/-- Spec side: the string carried by a string value. -/
def strOf : Val → String
  | .vstr s => s
  | _ => ""

/-- Spec side: a boolean value. -/
def isBoolV : Val → Bool
  | .vbool _ => true
  | _ => false

/-- Spec side: null or a string. -/
def isOptStrV : Val → Bool
  | .vnull => true
  | .vstr _ => true
  | _ => false

/-- Spec side: the optional string carried by a null-or-string value. -/
def optStrOf : Val → Option String
  | .vstr s => some s
  | _ => none

/-- Spec side: the value is exactly the string "OpenAI" (the closed
`dependence` set). -/
def isOpenAI : Val → Bool
  | .vstr s => s == "OpenAI"
  | _ => false

/-- Spec side: a feature value is a dict with `supported : bool` and
`model`, `url` each a string or null/absent. -/
def featureValOk : Val → Bool
  | .vdict d =>
    isBoolV (dget d "supported") && isOptStrV (dget d "model") && isOptStrV (dget d "url")
  | _ => false

/-- Spec side: the feature-key list of one raw model entry (empty when the
entry has no `features` dict). -/
def entryFeatureKeys : Val → List String
  | .vdict d =>
    match dget d "features" with
    | .vdict fs => fs.map Prod.fst
    | _ => []
  | _ => []

/-- Spec side: the per-entry field typing of §4.2 step 2–3 — every required
string field a non-empty string, `id` an int, `dependence` in the closed
set, `url_requirements` a bool, `base_url` null or a string, `features` a
dict of well-typed feature values. -/
def entryFieldsOk : Val → Bool
  | .vdict d =>
    isIntPy (dget d "id") && isNonEmptyStr (dget d "name") &&
    isNonEmptyStr (dget d "code") && isOpenAI (dget d "dependence") &&
    isBoolV (dget d "url_requirements") && isOptStrV (dget d "base_url") &&
    isNonEmptyStr (dget d "base_model") && isNonEmptyStr (dget d "charge_url") &&
    isNonEmptyStr (dget d "docs_url") &&
    (match dget d "features" with
     | .vdict fs => fs.all (fun p => featureValOk p.2)
     | _ => false)
  | _ => false

/-- Spec side: the entry has all four required feature keys. -/
def hasRequiredFeatureKeys (v : Val) : Bool :=
  requiredFeatureKeys.all (fun k => (entryFeatureKeys v).any (fun x => x == k))

/-- Spec side, claim C1 wording: when `url_requirements` is true the entry
has a non-null `base_url` (the empty string counts as present). -/
def entryUrlReqNonNull : Val → Bool
  | .vdict d =>
    match dget d "url_requirements" with
    | .vbool true =>
      match dget d "base_url" with
      | .vstr _ => true
      | _ => false
    | _ => true
  | _ => true

/-- Spec side, code behaviour: when `url_requirements` is true the entry has
a non-null, non-empty `base_url`. -/
def entryUrlReqOk : Val → Bool
  | .vdict d =>
    match dget d "url_requirements" with
    | .vbool true => strTruthy (optStrOf (dget d "base_url"))
    | _ => true
  | _ => true

/-- Spec side: the raw `models` list of a document. -/
def docModels : Val → List Val
  | .vdict d =>
    match dget d "models" with
    | .vlist ms => ms
    | _ => []
  | _ => []

/-- Spec side: a valid input document — a dict root with an int `version`, a
list `models`, and every entry passing the per-entry field typing. -/
def docValid : Val → Bool
  | .vdict d =>
    isIntPy (dget d "version") &&
    (match dget d "models" with
     | .vlist ms => ms.all entryFieldsOk
     | _ => false)
  | _ => false

/-- Spec side: the id of a raw model entry. -/
def specEntryId : Val → Int
  | .vdict d => pyInt (dget d "id")
  | _ => 0

/-- Spec side: the code of a raw model entry. -/
def specEntryCode : Val → String
  | .vdict d => strOf (dget d "code")
  | _ => ""

/-- Spec side: the sorted feature-key list of a raw model entry. -/
def specEntryKeySig (v : Val) : List String :=
  sortStrings (entryFeatureKeys v)

/-- Spec side: everything `ModelConfig.from_dict` checks on one entry. -/
def entryOkB (v : Val) : Bool :=
  entryFieldsOk v && hasRequiredFeatureKeys v && entryUrlReqOk v

/-!
The `OptionLanguage` enum (`option_language.py`): forty fixed members, each
carrying an id, a label and a language code, a linear-scan `from_code` with a
silent Chinese-Simplified default, and `system_prompt`.
-/

/-- The forty members of `OptionLanguage`, in declaration order. -/
inductive OptionLanguage where
  | CHINESE_SIMPLIFIED
  | CHINESE_TRADITIONAL
  | ENGLISH
  | JAPANESE
  | KOREAN
  | FRENCH
  | GERMAN
  | SPANISH
  | PORTUGUESE
  | ITALIAN
  | RUSSIAN
  | ARABIC
  | HINDI
  | DUTCH
  | SWEDISH
  | NORWEGIAN
  | DANISH
  | FINNISH
  | UKRAINIAN
  | POLISH
  | CZECH
  | SLOVAK
  | HUNGARIAN
  | ROMANIAN
  | BULGARIAN
  | SERBIAN
  | BENGALI
  | URDU
  | TAMIL
  | TELUGU
  | THAI
  | VIETNAMESE
  | INDONESIAN
  | MALAY
  | FILIPINO
  | HEBREW
  | PERSIAN
  | TURKISH
  | GREEK
  | LATIN
deriving DecidableEq, Repr

/-- The `(id, label, code)` triple stored on each member by `__new__`. -/
def OptionLanguage.data : OptionLanguage → Nat × String × String
  | .CHINESE_SIMPLIFIED => (1, "中文（简体）", "zh-CN")
  | .CHINESE_TRADITIONAL => (2, "中文（繁體）", "zh-TW")
  | .ENGLISH => (3, "English", "en")
  | .JAPANESE => (4, "日本語", "ja")
  | .KOREAN => (5, "한국어", "ko")
  | .FRENCH => (6, "Français", "fr")
  | .GERMAN => (7, "Deutsch", "de")
  | .SPANISH => (8, "Español", "es")
  | .PORTUGUESE => (9, "Português", "pt")
  | .ITALIAN => (10, "Italiano", "it")
  | .RUSSIAN => (11, "Русский", "ru")
  | .ARABIC => (12, "العربية", "ar")
  | .HINDI => (13, "हिन्दी", "hi")
  | .DUTCH => (14, "Nederlands", "nl")
  | .SWEDISH => (15, "Svenska", "sv")
  | .NORWEGIAN => (16, "Norsk", "no")
  | .DANISH => (17, "Dansk", "da")
  | .FINNISH => (18, "Suomi", "fi")
  | .UKRAINIAN => (19, "Українська", "uk")
  | .POLISH => (20, "Polski", "pl")
  | .CZECH => (21, "Čeština", "cs")
  | .SLOVAK => (22, "Slovenčina", "sk")
  | .HUNGARIAN => (23, "Magyar", "hu")
  | .ROMANIAN => (24, "Română", "ro")
  | .BULGARIAN => (25, "Български", "bg")
  | .SERBIAN => (26, "Српски", "sr")
  | .BENGALI => (27, "বাংলা", "bn")
  | .URDU => (28, "اردو", "ur")
  | .TAMIL => (29, "தமிழ்", "ta")
  | .TELUGU => (30, "తెలుగు", "te")
  | .THAI => (31, "ไทย", "th")
  | .VIETNAMESE => (32, "Tiếng Việt", "vi")
  | .INDONESIAN => (33, "Bahasa Indonesia", "id")
  | .MALAY => (34, "Bahasa Melayu", "ms")
  | .FILIPINO => (35, "Filipino", "fil")
  | .HEBREW => (36, "עברית", "he")
  | .PERSIAN => (37, "فارسی", "fa")
  | .TURKISH => (38, "Türkçe", "tr")
  | .GREEK => (39, "Ελληνικά", "el")
  | .LATIN => (40, "Latina", "la")

/-- The id stored on a member. -/
def OptionLanguage.id (l : OptionLanguage) : Nat := l.data.1

/-- The human label stored on a member. -/
def OptionLanguage.label (l : OptionLanguage) : String := l.data.2.1

/-- The language code stored on a member. -/
def OptionLanguage.code (l : OptionLanguage) : String := l.data.2.2

/-- The member list in declaration order (Python enum iteration order). -/
def OptionLanguage.members : List OptionLanguage :=
  [.CHINESE_SIMPLIFIED, .CHINESE_TRADITIONAL, .ENGLISH, .JAPANESE, .KOREAN,
   .FRENCH, .GERMAN, .SPANISH, .PORTUGUESE, .ITALIAN, .RUSSIAN, .ARABIC,
   .HINDI, .DUTCH, .SWEDISH, .NORWEGIAN, .DANISH, .FINNISH, .UKRAINIAN,
   .POLISH, .CZECH, .SLOVAK, .HUNGARIAN, .ROMANIAN, .BULGARIAN, .SERBIAN,
   .BENGALI, .URDU, .TAMIL, .TELUGU, .THAI, .VIETNAMESE, .INDONESIAN,
   .MALAY, .FILIPINO, .HEBREW, .PERSIAN, .TURKISH, .GREEK, .LATIN]

/-- `OptionLanguage.from_code`: linear scan for an exact code match, falling
back to `CHINESE_SIMPLIFIED` when no member matches (never fails). -/
def OptionLanguage.from_code (code : String) : OptionLanguage :=
  match OptionLanguage.members.find? (fun item => item.code == code) with
  | some item => item
  | none => .CHINESE_SIMPLIFIED

/-- `OptionLanguage.system_prompt`: the reply-language directive string. -/
def OptionLanguage.system_prompt (l : OptionLanguage) : String :=
  "Reply strictly in " ++ l.label ++ " (" ++ l.code ++ ")."

/-!
Heap model for `ModelRegistry.list_models` (claim C10).  Python lists are
mutable objects; `list_models` returns `list(self._cfg.models)` — a fresh
list object whose contents copy the stored one.  The heap maps addresses to
list objects; `_cfg.models` lives at one address, and every `list(...)` call
allocates a new one.  `ModelConfig` records are frozen dataclasses, kept as
plain immutable values.
-/

/-- A heap of Python list-of-`ModelConfig` objects: `cells` maps allocated
addresses to contents, `next` is the next fresh address (all allocated
addresses are below `next`). -/
structure PyHeap where
  cells : Nat → Option (List ModelConfig)
  next : Nat

/-- Read the list object at an address (empty for unallocated addresses). -/
def PyHeap.read (h : PyHeap) (a : Nat) : List ModelConfig :=
  (h.cells a).getD []

/-- Allocate a fresh list object with the given contents; returns the new
heap and the fresh address. -/
def PyHeap.alloc (h : PyHeap) (v : List ModelConfig) : PyHeap × Nat :=
  (⟨fun x => if x = h.next then some v else h.cells x, h.next + 1⟩, h.next)

/-- In-place mutation of the list object at an address (e.g. `append`,
`clear`, slice assignment — any rebinding of its contents). -/
def PyHeap.write (h : PyHeap) (a : Nat) (v : List ModelConfig) : PyHeap :=
  ⟨fun x => if x = a then some v else h.cells x, h.next⟩

/-- Runtime view of `ModelRegistry`: `_cfg.models` is the list object at
`modelsAddr`; the two indices are lookup structures never handed out. -/
structure ModelRegistryRT where
  modelsAddr : Nat
  by_id : List (Int × ModelConfig)
  by_code : List (String × ModelConfig)

/-- `ModelRegistry.list_models` at runtime: `return list(self._cfg.models)`
— allocate a fresh list object copying the stored contents. -/
def ModelRegistryRT.list_models (r : ModelRegistryRT) (h : PyHeap) : PyHeap × Nat :=
  h.alloc (h.read r.modelsAddr)

/-- `ModelRegistry.get_by_code` at runtime: reads only the `_by_code` index,
never the heap-allocated models list. -/
def ModelRegistryRT.get_by_code (r : ModelRegistryRT) (_h : PyHeap) (code : String) :
    Except Err ModelConfig :=
  match r.by_code.find? (fun p => p.1 == code) with
  | some p => .ok p.2
  | none => .error (.keyError ("Unknown model code: " ++ code))

/-- `ModelRegistry.get_by_id` at runtime. -/
def ModelRegistryRT.get_by_id (r : ModelRegistryRT) (_h : PyHeap) (model_id : Int) :
    Except Err ModelConfig :=
  match r.by_id.find? (fun p => p.1 == model_id) with
  | some p => .ok p.2
  | none => .error (.keyError ("Unknown model id: " ++ toString model_id))

/-- `ModelRegistry.resolve` at runtime. -/
def ModelRegistryRT.resolve (r : ModelRegistryRT) (h : PyHeap) (code : String)
    (feature : Option String) : Except Err (Option String × String) := do
  let m ← r.get_by_code h code
  m.resolve_endpoint feature

/-- Spec side: the boolean carried by a boolean value. -/
def boolOf : Val → Bool
  | .vbool b => b
  | _ => false

/-!
Concrete documents and registries used to instantiate the theorems (the
deepseek example follows the usage sketch at the bottom of
`option_textmodel.py` and §8 of the spec).
-/

/-- A feature value that is off. -/
def exFeatureOff : Val :=
  .vdict [("supported", .vbool false)]

/-- A supported feature value with its own model but no url. -/
def exFeatureDeep : Val :=
  .vdict [("supported", .vbool true), ("model", .vstr "deepseek-reasoner")]

/-- A fully valid model entry (id 1, code "deepseek"). -/
def exEntryDict : List (String × Val) :=
  [("id", .vint 1), ("name", .vstr "DeepSeek"), ("code", .vstr "deepseek"),
   ("dependence", .vstr "OpenAI"), ("url_requirements", .vbool true),
   ("base_url", .vstr "https://api.deepseek.com"),
   ("base_model", .vstr "deepseek-chat"),
   ("charge_url", .vstr "https://platform.deepseek.com"),
   ("docs_url", .vstr "https://api-docs.deepseek.com"),
   ("features", .vdict [("mini_version", exFeatureOff), ("deep_think", exFeatureDeep),
     ("json_output", exFeatureOff), ("tool_calls", exFeatureOff)])]

/-- A second fully valid model entry (id 2, code "chatgpt") whose feature
dict has one extra key beyond the required four. -/
def exEntryExtraKeyDict : List (String × Val) :=
  [("id", .vint 2), ("name", .vstr "ChatGPT"), ("code", .vstr "chatgpt"),
   ("dependence", .vstr "OpenAI"), ("url_requirements", .vbool false),
   ("base_model", .vstr "gpt-4o"),
   ("charge_url", .vstr "https://platform.openai.com"),
   ("docs_url", .vstr "https://platform.openai.com/docs"),
   ("features", .vdict [("mini_version", exFeatureOff), ("deep_think", exFeatureOff),
     ("json_output", exFeatureOff), ("tool_calls", exFeatureOff),
     ("extra_mode", exFeatureOff)])]

/-- The entry of `exEntryDict` with the int id replaced by a Python boolean. -/
def exEntryBoolIdDict : List (String × Val) :=
  [("id", .vbool true), ("name", .vstr "DeepSeek"), ("code", .vstr "deepseek"),
   ("dependence", .vstr "OpenAI"), ("url_requirements", .vbool true),
   ("base_url", .vstr "https://api.deepseek.com"),
   ("base_model", .vstr "deepseek-chat"),
   ("charge_url", .vstr "https://platform.deepseek.com"),
   ("docs_url", .vstr "https://api-docs.deepseek.com"),
   ("features", .vdict [("mini_version", exFeatureOff), ("deep_think", exFeatureDeep),
     ("json_output", exFeatureOff), ("tool_calls", exFeatureOff)])]

/-- The entry of `exEntryDict` with `url_requirements` true and a null
`base_url`. -/
def exEntryNullUrlDict : List (String × Val) :=
  [("id", .vint 3), ("name", .vstr "DeepSeek"), ("code", .vstr "deepseek3"),
   ("dependence", .vstr "OpenAI"), ("url_requirements", .vbool true),
   ("base_model", .vstr "deepseek-chat"),
   ("charge_url", .vstr "https://platform.deepseek.com"),
   ("docs_url", .vstr "https://api-docs.deepseek.com"),
   ("features", .vdict [("mini_version", exFeatureOff), ("deep_think", exFeatureDeep),
     ("json_output", exFeatureOff), ("tool_calls", exFeatureOff)])]

/-- A fully valid one-model document. -/
def exDocGood : Val :=
  .vdict [("version", .vint 1), ("models", .vlist [.vdict exEntryDict])]

/-- A document whose two models are each individually valid, have the four
required feature keys, distinct ids and codes, and satisfy the url
requirement — but disagree on their feature-key sets. -/
def exDocInconsistent : Val :=
  .vdict [("version", .vint 1),
    ("models", .vlist [.vdict exEntryDict, .vdict exEntryExtraKeyDict])]

/-- The parsed `ModelConfig` of `exEntryDict`. -/
def exModel1 : ModelConfig :=
  ⟨1, "DeepSeek", "deepseek", "OpenAI", true, some "https://api.deepseek.com",
   "deepseek-chat", "https://platform.deepseek.com", "https://api-docs.deepseek.com",
   [("mini_version", ⟨false, none, none⟩), ("deep_think", ⟨true, some "deepseek-reasoner", none⟩),
    ("json_output", ⟨false, none, none⟩), ("tool_calls", ⟨false, none, none⟩)]⟩

/-- A model whose features exercise the truthiness edge cases: an
empty-string feature url, an empty-string feature model, and a null feature
model on a supported feature. -/
def exModel2 : ModelConfig :=
  ⟨2, "Demo", "demo", "OpenAI", false, none,
   "demo-base", "https://charge.example", "https://docs.example",
   [("mini_version", ⟨true, some "mini-model", some ""⟩),
    ("deep_think", ⟨true, some "", none⟩),
    ("json_output", ⟨true, none, none⟩),
    ("tool_calls", ⟨false, none, none⟩)]⟩

/-- Registry config holding `exModel1`. -/
def exCfg : RegistryConfig := ⟨1, [exModel1]⟩

/-- The registry built from `exCfg` by `__init__`. -/
def exReg : ModelRegistry := ⟨exCfg, [(1, exModel1)], [("deepseek", exModel1)]⟩

/-- A registry holding `exModel2`. -/
def exReg2 : ModelRegistry := ⟨⟨1, [exModel2]⟩, [(2, exModel2)], [("demo", exModel2)]⟩

/-- A one-object heap whose address 0 holds the stored models list. -/
def exHeap : PyHeap :=
  ⟨fun x => if x = 0 then some [exModel1] else none, 1⟩

/-- The runtime registry whose `_cfg.models` lives at address 0. -/
def exRegRT : ModelRegistryRT := ⟨0, [(1, exModel1)], [("deepseek", exModel1)]⟩

/-!
Characterization lemmas: each field check of `ModelConfig.from_dict` succeeds
exactly on the values its spec-side predicate accepts, returning the
spec-side extracted value.
-/

@[simp] theorem isOk_ok {α : Type} (a : α) : (Except.ok a : Except Err α).isOk = true := rfl

@[simp] theorem isOk_error {α : Type} (e : Err) :
    (Except.error e : Except Err α).isOk = false := rfl

@[simp] theorem ok_bind {α β : Type} (a : α) (f : α → Except Err β) :
    (Except.ok a : Except Err α) >>= f = f a := rfl

@[simp] theorem error_bind {α β : Type} (e : Err) (f : α → Except Err β) :
    (Except.error e : Except Err α) >>= f = Except.error e := rfl

theorem req_int_eq (d : List (String × Val)) (ctx key : String) :
    req_int d ctx key =
      if isIntPy (dget d key) then .ok (pyInt (dget d key))
      else .error (.typeError (ctx ++ "." ++ key ++ " must be int")) := by
  unfold req_int isIntPy pyInt
  cases dget d key <;> rfl

theorem req_str_eq (d : List (String × Val)) (ctx key : String) :
    req_str d ctx key =
      if isNonEmptyStr (dget d key) then .ok (strOf (dget d key))
      else .error (.typeError (ctx ++ "." ++ key ++ " must be non-empty str")) := by
  unfold req_str isNonEmptyStr strOf
  cases dget d key with
  | vstr s => cases hse : s.isEmpty <;> simp [hse]
  | vnull => rfl
  | vbool b => rfl
  | vint n => rfl
  | vlist xs => rfl
  | vdict xs => rfl

theorem req_bool_eq (d : List (String × Val)) (ctx key : String) :
    req_bool d ctx key =
      if isBoolV (dget d key) then .ok (boolOf (dget d key))
      else .error (.typeError (ctx ++ "." ++ key ++ " must be bool")) := by
  unfold req_bool isBoolV boolOf
  cases dget d key <;> rfl

theorem req_dependence_eq (d : List (String × Val)) (ctx : String) :
    req_dependence d ctx =
      if isOpenAI (dget d "dependence") then .ok (strOf (dget d "dependence"))
      else .error (.valueError (ctx ++ ".dependence must be one of [OpenAI]")) := by
  unfold req_dependence isOpenAI strOf
  cases dget d "dependence" with
  | vstr s => cases hs : s == "OpenAI" <;> simp [hs]
  | vnull => rfl
  | vbool b => rfl
  | vint n => rfl
  | vlist xs => rfl
  | vdict xs => rfl

theorem opt_base_url_eq (d : List (String × Val)) (ctx : String) :
    opt_base_url d ctx =
      if isOptStrV (dget d "base_url") then .ok (optStrOf (dget d "base_url"))
      else .error (.typeError (ctx ++ ".base_url must be str|null")) := by
  unfold opt_base_url isOptStrV optStrOf
  cases dget d "base_url" <;> rfl

theorem featureConfig_from_dict_isOk (v : Val) (ctx : String) :
    (FeatureConfig.from_dict v ctx).isOk = featureValOk v := by
  cases v <;> simp only [FeatureConfig.from_dict, featureValOk] <;> try rfl
  case vdict d =>
    cases dget d "supported" <;> cases dget d "model" <;> cases dget d "url" <;> rfl

theorem parseFeatures_isOk (fs : List (String × Val)) (ctx : String) :
    (parseFeatures fs ctx).isOk = fs.all (fun p => featureValOk p.2) := by
  induction fs with
  | nil => rfl
  | cons p rest ih =>
    obtain ⟨k, fv⟩ := p
    have hchar := featureConfig_from_dict_isOk fv (ctx ++ ".features." ++ k)
    simp only [parseFeatures, List.all_cons]
    cases hf : FeatureConfig.from_dict fv (ctx ++ ".features." ++ k) with
    | error e =>
      rw [hf] at hchar
      simp [← hchar]
    | ok fc =>
      rw [hf] at hchar
      cases hr : parseFeatures rest ctx with
      | error e =>
        rw [hr] at ih
        simp [← hchar, ← ih]
      | ok l =>
        rw [hr] at ih
        simp [← hchar, ← ih]

theorem parseFeatures_ok_keys (fs : List (String × Val)) (ctx : String)
    (l : List (String × FeatureConfig)) (h : parseFeatures fs ctx = .ok l) :
    l.map Prod.fst = fs.map Prod.fst := by
  induction fs generalizing l with
  | nil =>
    simp only [parseFeatures] at h
    cases h
    rfl
  | cons p rest ih =>
    obtain ⟨k, fv⟩ := p
    simp only [parseFeatures] at h
    cases hf : FeatureConfig.from_dict fv (ctx ++ ".features." ++ k) <;> rw [hf] at h
    case error e => cases h
    case ok fc =>
      cases hr : parseFeatures rest ctx <;> rw [hr] at h
      case error e => cases h
      case ok tail =>
        simp only [ok_bind] at h
        cases h
        simp [ih tail hr]

theorem req_features_ok_keys (d : List (String × Val)) (ctx : String)
    (l : List (String × FeatureConfig)) (h : req_features d ctx = .ok l) :
    l.map Prod.fst = entryFeatureKeys (.vdict d) := by
  unfold req_features at h
  simp only [entryFeatureKeys]
  cases hdf : dget d "features" <;> rw [hdf] at h <;> try cases h
  case vdict fs => exact parseFeatures_ok_keys fs ctx l h

theorem req_features_isOk (d : List (String × Val)) (ctx : String) :
    (req_features d ctx).isOk =
      (match dget d "features" with
       | .vdict fs => fs.all (fun p => featureValOk p.2)
       | _ => false) := by
  unfold req_features
  cases dget d "features" <;> simp [parseFeatures_isOk]

theorem any_fst_eq {β : Type} (l : List (String × β)) (k : String) :
    l.any (fun p => p.1 == k) = (l.map Prod.fst).any (fun x => x == k) := by
  induction l with
  | nil => rfl
  | cons a t ih => simp [ih]

theorem modelConfig_from_dict_isOk (v : Val) (ctx : String) :
    (ModelConfig.from_dict v ctx).isOk =
      (entryFieldsOk v && hasRequiredFeatureKeys v && entryUrlReqOk v) := by
  cases v <;> try rfl
  case vdict d =>
    simp only [ModelConfig.from_dict, entryFieldsOk, req_int_eq, req_str_eq, req_bool_eq,
      req_dependence_eq, opt_base_url_eq]
    cases h1 : isIntPy (dget d "id")
    · simp [h1]
    cases h2 : isNonEmptyStr (dget d "name")
    · simp [h1, h2]
    cases h3 : isNonEmptyStr (dget d "code")
    · simp [h1, h2, h3]
    cases h4 : isOpenAI (dget d "dependence")
    · simp [h1, h2, h3, h4]
    cases h5 : isBoolV (dget d "url_requirements")
    · simp [h1, h2, h3, h4, h5]
    cases h6 : isOptStrV (dget d "base_url")
    · simp [h1, h2, h3, h4, h5, h6]
    cases h7 : isNonEmptyStr (dget d "base_model")
    · simp [h1, h2, h3, h4, h5, h6, h7]
    cases h8 : isNonEmptyStr (dget d "charge_url")
    · simp [h1, h2, h3, h4, h5, h6, h7, h8]
    cases h9 : isNonEmptyStr (dget d "docs_url")
    · simp [h1, h2, h3, h4, h5, h6, h7, h8, h9]
    simp only [h1, h2, h3, h4, h5, h6, h7, h8, h9, if_true, Bool.true_and, ok_bind]
    cases hf : req_features d ctx with
    | error e =>
      have hio := req_features_isOk d ctx
      rw [hf] at hio
      simp [← hio]
    | ok features =>
      have hio := req_features_isOk d ctx
      rw [hf] at hio
      have hkeys := req_features_ok_keys d ctx features hf
      have hcond : requiredFeatureKeys.all (fun k => features.any (fun p => p.1 == k))
          = hasRequiredFeatureKeys (.vdict d) := by
        unfold hasRequiredFeatureKeys
        rw [← hkeys]
        simp [any_fst_eq]
      simp only [ok_bind, ← hio, Bool.true_and, hcond]
      cases hrk : hasRequiredFeatureKeys (.vdict d)
      · simp
      · have hurl : (boolOf (dget d "url_requirements") && !strTruthy (optStrOf (dget d "base_url")))
            = !entryUrlReqOk (.vdict d) := by
          simp only [entryUrlReqOk]
          cases dget d "url_requirements" with
          | vbool b => cases b <;> simp [boolOf]
          | vnull => simp [boolOf]
          | vint n => simp [boolOf]
          | vstr s => simp [boolOf]
          | vlist xs => simp [boolOf]
          | vdict xs => simp [boolOf]
        simp only [hurl]
        cases he : entryUrlReqOk (.vdict d) <;> simp [he]

theorem modelConfig_from_dict_ok_val (d : List (String × Val)) (ctx : String) (m : ModelConfig)
    (h : ModelConfig.from_dict (.vdict d) ctx = .ok m) :
    m.id = pyInt (dget d "id") ∧ m.name = strOf (dget d "name") ∧
    m.code = strOf (dget d "code") ∧
    m.url_requirements = boolOf (dget d "url_requirements") ∧
    m.base_url = optStrOf (dget d "base_url") ∧
    m.base_model = strOf (dget d "base_model") ∧
    m.features.map Prod.fst = entryFeatureKeys (.vdict d) ∧
    (m.url_requirements && !strTruthy m.base_url) = false := by
  simp only [ModelConfig.from_dict, req_int_eq, req_str_eq, req_bool_eq, req_dependence_eq,
    opt_base_url_eq] at h
  cases h1 : isIntPy (dget d "id")
  · simp [h1] at h
  cases h2 : isNonEmptyStr (dget d "name")
  · simp [h1, h2] at h
  cases h3 : isNonEmptyStr (dget d "code")
  · simp [h1, h2, h3] at h
  cases h4 : isOpenAI (dget d "dependence")
  · simp [h1, h2, h3, h4] at h
  cases h5 : isBoolV (dget d "url_requirements")
  · simp [h1, h2, h3, h4, h5] at h
  cases h6 : isOptStrV (dget d "base_url")
  · simp [h1, h2, h3, h4, h5, h6] at h
  cases h7 : isNonEmptyStr (dget d "base_model")
  · simp [h1, h2, h3, h4, h5, h6, h7] at h
  cases h8 : isNonEmptyStr (dget d "charge_url")
  · simp [h1, h2, h3, h4, h5, h6, h7, h8] at h
  cases h9 : isNonEmptyStr (dget d "docs_url")
  · simp [h1, h2, h3, h4, h5, h6, h7, h8, h9] at h
  simp only [h1, h2, h3, h4, h5, h6, h7, h8, h9, if_true, Bool.true_and, ok_bind] at h
  cases hf : req_features d ctx <;> rw [hf] at h
  case error e => simp at h
  case ok features =>
    have hkeys := req_features_ok_keys d ctx features hf
    simp only [ok_bind] at h
    cases hcond : requiredFeatureKeys.all (fun k => features.any (fun p => p.1 == k)) <;>
      simp only [hcond] at h
    · simp at h
    cases hu : (boolOf (dget d "url_requirements") && !strTruthy (optStrOf (dget d "base_url"))) <;>
      simp only [hu] at h
    · simp only [if_true, if_false, Bool.false_eq_true, ite_false, ite_true] at h
      cases h
      refine ⟨rfl, rfl, rfl, rfl, rfl, rfl, hkeys, hu⟩
    · simp at h

theorem from_dict_ok_entry (e : Val) (ctx : String) (m : ModelConfig)
    (h : ModelConfig.from_dict e ctx = .ok m) :
    m.id = specEntryId e ∧ m.code = specEntryCode e ∧ featureKeySig m = specEntryKeySig e := by
  cases e with
  | vnull => cases h
  | vbool b => cases h
  | vint n => cases h
  | vstr s => cases h
  | vlist xs => cases h
  | vdict d =>
    obtain ⟨hid, -, hcode, -, -, -, hkeys, -⟩ := modelConfig_from_dict_ok_val d ctx m h
    refine ⟨hid, hcode, ?_⟩
    simp [featureKeySig, specEntryKeySig, hkeys]

theorem parseModels_isOk (ms : List Val) (i : Nat) :
    (parseModels ms i).isOk = ms.all entryOkB := by
  induction ms generalizing i with
  | nil => rfl
  | cons e rest ih =>
    simp only [parseModels, List.all_cons]
    have hchar := modelConfig_from_dict_isOk e ("models[" ++ toString i ++ "]")
    cases he : ModelConfig.from_dict e ("models[" ++ toString i ++ "]") with
    | error err =>
      rw [he] at hchar
      simp [← hchar, entryOkB]
    | ok mc =>
      rw [he] at hchar
      have ih' := ih (i + 1)
      cases hr : parseModels rest (i + 1) with
      | error err =>
        rw [hr] at ih'
        simp [← hchar, ← ih', entryOkB]
      | ok l =>
        rw [hr] at ih'
        simp [← hchar, ← ih', entryOkB]

theorem parseModels_ok_val (ms : List Val) (i : Nat) (l : List ModelConfig)
    (h : parseModels ms i = .ok l) :
    l.map ModelConfig.id = ms.map specEntryId ∧
    l.map ModelConfig.code = ms.map specEntryCode ∧
    l.map featureKeySig = ms.map specEntryKeySig := by
  induction ms generalizing i l with
  | nil =>
    simp only [parseModels] at h
    cases h
    simp
  | cons e rest ih =>
    simp only [parseModels] at h
    cases he : ModelConfig.from_dict e ("models[" ++ toString i ++ "]") <;> rw [he] at h
    case error err => cases h
    case ok mc =>
      cases hr : parseModels rest (i + 1) <;> rw [hr] at h
      case error err => cases h
      case ok tail =>
        simp only [ok_bind] at h
        cases h
        obtain ⟨ih1, ih2, ih3⟩ := ih (i + 1) tail hr
        obtain ⟨e1, e2, e3⟩ := from_dict_ok_entry e ("models[" ++ toString i ++ "]") mc he
        simp [ih1, ih2, ih3, e1, e2, e3]

theorem find?_fst_isSome {α β : Type} [BEq α] [LawfulBEq α] (l : List (α × β)) (a : α) :
    (l.find? (fun p => p.1 == a)).isSome = true ↔ a ∈ l.map Prod.fst := by
  rw [List.find?_isSome]
  constructor
  · rintro ⟨p, hp, he⟩
    exact List.mem_map.mpr ⟨p, hp, by simpa using he⟩
  · intro hmem
    obtain ⟨p, hp, he⟩ := List.mem_map.mp hmem
    exact ⟨p, hp, by simpa using he⟩

theorem buildIndices_isOk (ms : List ModelConfig) (by_id : List (Int × ModelConfig))
    (by_code : List (String × ModelConfig)) :
    (buildIndices ms by_id by_code).isOk = true ↔
      ((ms.map ModelConfig.id).Nodup ∧ (∀ m ∈ ms, m.id ∉ by_id.map Prod.fst) ∧
       (ms.map ModelConfig.code).Nodup ∧ (∀ m ∈ ms, m.code ∉ by_code.map Prod.fst)) := by
  induction ms generalizing by_id by_code with
  | nil => simp [buildIndices]
  | cons m rest ih =>
    simp only [buildIndices]
    by_cases h1 : m.id ∈ by_id.map Prod.fst
    · have e1 : (by_id.find? (fun p => p.1 == m.id)).isSome = true :=
        (find?_fst_isSome by_id m.id).mpr h1
      simp only [e1, if_true, isOk_error]
      constructor
      · intro hc
        exact absurd hc (by decide)
      · rintro ⟨-, hall, -, -⟩
        exact absurd h1 (hall m (List.mem_cons_self m rest))
    · have e1 : (by_id.find? (fun p => p.1 == m.id)).isSome = false := by
        cases hx : (by_id.find? (fun p => p.1 == m.id)).isSome
        · rfl
        · exact absurd ((find?_fst_isSome by_id m.id).mp hx) h1
      by_cases h2 : m.code ∈ by_code.map Prod.fst
      · have e2 : (by_code.find? (fun p => p.1 == m.code)).isSome = true :=
          (find?_fst_isSome by_code m.code).mpr h2
        simp only [e1, e2, if_true, if_false, Bool.false_eq_true, ite_false, isOk_error]
        constructor
        · intro hc
          exact absurd hc (by decide)
        · rintro ⟨-, -, -, hall⟩
          exact absurd h2 (hall m (List.mem_cons_self m rest))
      · have e2 : (by_code.find? (fun p => p.1 == m.code)).isSome = false := by
          cases hx : (by_code.find? (fun p => p.1 == m.code)).isSome
          · rfl
          · exact absurd ((find?_fst_isSome by_code m.code).mp hx) h2
        simp only [e1, e2, Bool.false_eq_true, ite_false]
        rw [ih]
        have hmapapp : (by_id ++ [(m.id, m)]).map Prod.fst = by_id.map Prod.fst ++ [m.id] := by
          simp
        have hmapapp2 : (by_code ++ [(m.code, m)]).map Prod.fst
            = by_code.map Prod.fst ++ [m.code] := by
          simp
        rw [hmapapp, hmapapp2]
        constructor
        · rintro ⟨hnd1, hmem1, hnd2, hmem2⟩
          have hb1 : ∀ x ∈ rest, x.id ∉ by_id.map Prod.fst ∧ x.id ≠ m.id := by
            intro x hx
            have hxm := hmem1 x hx
            rw [List.mem_append, List.mem_singleton] at hxm
            exact not_or.mp hxm
          have hb2 : ∀ x ∈ rest, x.code ∉ by_code.map Prod.fst ∧ x.code ≠ m.code := by
            intro x hx
            have hxm := hmem2 x hx
            rw [List.mem_append, List.mem_singleton] at hxm
            exact not_or.mp hxm
          refine ⟨?_, ?_, ?_, ?_⟩
          · rw [List.map_cons, List.nodup_cons]
            refine ⟨?_, hnd1⟩
            rw [List.mem_map]
            rintro ⟨x, hx, hxe⟩
            exact (hb1 x hx).2 hxe
          · intro x hx
            rcases List.mem_cons.mp hx with rfl | hx'
            · exact h1
            · exact (hb1 x hx').1
          · rw [List.map_cons, List.nodup_cons]
            refine ⟨?_, hnd2⟩
            rw [List.mem_map]
            rintro ⟨x, hx, hxe⟩
            exact (hb2 x hx).2 hxe
          · intro x hx
            rcases List.mem_cons.mp hx with rfl | hx'
            · exact h2
            · exact (hb2 x hx').1
        · rintro ⟨hndc1, hmem1, hndc2, hmem2⟩
          rw [List.map_cons, List.nodup_cons] at hndc1 hndc2
          obtain ⟨hmi, hnd1⟩ := hndc1
          obtain ⟨hmc, hnd2⟩ := hndc2
          refine ⟨hnd1, ?_, hnd2, ?_⟩
          · intro x hx
            rw [List.mem_append, List.mem_singleton]
            rintro (hin | heq)
            · exact hmem1 x (List.mem_cons_of_mem m hx) hin
            · exact hmi (List.mem_map.mpr ⟨x, hx, heq⟩)
          · intro x hx
            rw [List.mem_append, List.mem_singleton]
            rintro (hin | heq)
            · exact hmem2 x (List.mem_cons_of_mem m hx) hin
            · exact hmc (List.mem_map.mpr ⟨x, hx, heq⟩)

theorem init_isOk (cfg : RegistryConfig) :
    (ModelRegistry.init cfg).isOk = true ↔
      ((cfg.models.map ModelConfig.id).Nodup ∧ (cfg.models.map ModelConfig.code).Nodup ∧
       (cfg.models.map featureKeySig).dedup.length = 1) := by
  unfold ModelRegistry.init
  have hbi := buildIndices_isOk cfg.models [] []
  cases hb : buildIndices cfg.models [] [] with
  | error e =>
    rw [hb] at hbi
    simp only [isOk_error, error_bind]
    constructor
    · intro hc
      exact absurd hc (by decide)
    · rintro ⟨hA, hB, -⟩
      exact hbi.mpr ⟨hA, by simp, hB, by simp⟩
  | ok idx =>
    rw [hb] at hbi
    obtain ⟨hA, -, hB, -⟩ := hbi.mp rfl
    simp only [ok_bind]
    by_cases hl : (cfg.models.map featureKeySig).dedup.length = 1
    · have hbeq : ((cfg.models.map featureKeySig).dedup.length == 1) = true := by
        simpa using hl
      simp only [hbeq, if_true, isOk_ok]
      constructor
      · intro _
        exact ⟨hA, hB, hl⟩
      · intro _
        trivial
    · have hbeq : ((cfg.models.map featureKeySig).dedup.length == 1) = false := by
        simpa using hl
      simp only [hbeq, Bool.false_eq_true, ite_false, isOk_error]
      constructor
      · intro hc
        exact absurd hc (by decide)
      · rintro ⟨-, -, hC⟩
        exact absurd hC hl

theorem all_entryOk_split (ms : List Val) (hf : ms.all entryFieldsOk = true) :
    ms.all entryOkB = ms.all (fun e => hasRequiredFeatureKeys e && entryUrlReqOk e) := by
  induction ms with
  | nil => rfl
  | cons e rest ih =>
    rw [List.all_cons, Bool.and_eq_true] at hf
    obtain ⟨he, hrest⟩ := hf
    rw [List.all_cons, List.all_cons, ih hrest]
    unfold entryOkB
    rw [he]
    simp [Bool.and_assoc]

theorem loadModels_isOk (ms : List Val) (version : Int)
    (hfields : ms.all entryFieldsOk = true) :
    ((parseModels ms 0) >>= fun models =>
        ModelRegistry.init ⟨version, models⟩).isOk = true ↔
      (ms.all (fun e => hasRequiredFeatureKeys e && entryUrlReqOk e) = true ∧
       (ms.map specEntryId).Nodup ∧ (ms.map specEntryCode).Nodup ∧
       (ms.map specEntryKeySig).dedup.length = 1) := by
  have hpo := parseModels_isOk ms 0
  cases hp : parseModels ms 0 with
  | error e =>
    rw [hp] at hpo
    rw [all_entryOk_split ms hfields] at hpo
    simp only [error_bind, isOk_error]
    constructor
    · intro hc
      exact absurd hc (by decide)
    · rintro ⟨hall, -⟩
      rw [← hpo] at hall
      simp at hall
  | ok models =>
    rw [hp] at hpo
    rw [all_entryOk_split ms hfields] at hpo
    obtain ⟨h1, h2, h3⟩ := parseModels_ok_val ms 0 models hp
    simp only [ok_bind]
    rw [init_isOk]
    dsimp only
    rw [h1, h2, h3]
    simp [← hpo]

/-- C1 (amended): for every valid input document, `ModelRegistry.load`
succeeds iff every model entry has the four required feature keys, an id
unique across the registry, a code unique across the registry, a non-null
and non-empty `base_url` whenever `url_requirements` is true, and —
additionally to the claim as stated — the models list is non-empty and all
entries expose the identical sorted feature-key list (the global consistency
check of `__init__`); the last condition is stated as the deduplicated list
of per-entry sorted feature-key lists having exactly one element. -/
theorem load_isOk_iff_spec (doc : Val) (hvalid : docValid doc = true) :
    (ModelRegistry.load doc).isOk = true ↔
      ((docModels doc).all (fun e => hasRequiredFeatureKeys e && entryUrlReqOk e) = true ∧
       ((docModels doc).map specEntryId).Nodup ∧
       ((docModels doc).map specEntryCode).Nodup ∧
       ((docModels doc).map specEntryKeySig).dedup.length = 1) := by
  cases doc with
  | vnull => simp [docValid] at hvalid
  | vbool b => simp [docValid] at hvalid
  | vint n => simp [docValid] at hvalid
  | vstr s => simp [docValid] at hvalid
  | vlist xs => simp [docValid] at hvalid
  | vdict d =>
    simp only [docValid, Bool.and_eq_true] at hvalid
    obtain ⟨hver, hmod⟩ := hvalid
    simp only [ModelRegistry.load, docModels]
    cases hv : dget d "version" with
    | vint n =>
      cases hm : dget d "models" with
      | vlist ms =>
        rw [hm] at hmod
        exact loadModels_isOk ms n hmod
      | vnull => rw [hm] at hmod; exact Bool.noConfusion hmod
      | vbool b2 => rw [hm] at hmod; exact Bool.noConfusion hmod
      | vint n2 => rw [hm] at hmod; exact Bool.noConfusion hmod
      | vstr s2 => rw [hm] at hmod; exact Bool.noConfusion hmod
      | vdict d2 => rw [hm] at hmod; exact Bool.noConfusion hmod
    | vbool b =>
      cases hm : dget d "models" with
      | vlist ms =>
        rw [hm] at hmod
        exact loadModels_isOk ms (if b then 1 else 0) hmod
      | vnull => rw [hm] at hmod; exact Bool.noConfusion hmod
      | vbool b2 => rw [hm] at hmod; exact Bool.noConfusion hmod
      | vint n2 => rw [hm] at hmod; exact Bool.noConfusion hmod
      | vstr s2 => rw [hm] at hmod; exact Bool.noConfusion hmod
      | vdict d2 => rw [hm] at hmod; exact Bool.noConfusion hmod
    | vnull => rw [hv] at hver; exact Bool.noConfusion hver
    | vstr s => rw [hv] at hver; exact Bool.noConfusion hver
    | vlist xs => rw [hv] at hver; exact Bool.noConfusion hver
    | vdict d2 => rw [hv] at hver; exact Bool.noConfusion hver

/-- C1 counterexample: a document whose two models are individually valid,
carry all four required feature keys, have unique ids, unique codes, and a
non-null `base_url` wherever `url_requirements` is true — yet
`ModelRegistry.load` fails, because the feature-key set of the second model
has an extra key and the global consistency check rejects the document.
This refutes the "if and only if" of the claim as stated. -/
theorem load_fails_despite_C1_conditions :
    docValid exDocInconsistent = true ∧
    (docModels exDocInconsistent).all hasRequiredFeatureKeys = true ∧
    ((docModels exDocInconsistent).map specEntryId).Nodup ∧
    ((docModels exDocInconsistent).map specEntryCode).Nodup ∧
    (docModels exDocInconsistent).all entryUrlReqNonNull = true ∧
    (ModelRegistry.load exDocInconsistent).isOk = false := by
  refine ⟨by rfl, by rfl, by decide, by decide, by rfl, by rfl⟩

/-- Witness for the amended C1 theorem: the valid one-model document
satisfies all conditions and loads successfully. -/
theorem load_isOk_iff_spec_witness :
    (ModelRegistry.load exDocGood).isOk = true :=
  (load_isOk_iff_spec exDocGood (by rfl)).mpr ⟨by rfl, by decide, by decide, by rfl⟩

theorem dedup_length_one_all_eq {α : Type} [DecidableEq α] (l : List α)
    (h : l.dedup.length = 1) : ∀ x ∈ l, ∀ y ∈ l, x = y := by
  obtain ⟨a, ha⟩ := List.length_eq_one.mp h
  intro x hx y hy
  have hxa : x = a := by
    have hxd : x ∈ l.dedup := List.mem_dedup.mpr hx
    rw [ha] at hxd
    simpa using hxd
  have hya : y = a := by
    have hyd : y ∈ l.dedup := List.mem_dedup.mpr hy
    rw [ha] at hyd
    simpa using hyd
  rw [hxa, hya]

theorem init_ok_cfg (cfg : RegistryConfig) (r : ModelRegistry)
    (h : ModelRegistry.init cfg = .ok r) : r.cfg = cfg := by
  unfold ModelRegistry.init at h
  cases hb : buildIndices cfg.models [] [] <;> rw [hb] at h
  case error e => simp at h
  case ok idx =>
    simp only [ok_bind] at h
    by_cases hl : ((cfg.models.map featureKeySig).dedup.length == 1) = true
    · rw [if_pos hl] at h
      cases h
      rfl
    · rw [if_neg hl] at h
      simp at h

/-- C2: in every successfully constructed `ModelRegistry`, all models expose
the identical sorted feature-key list; and whenever two models of the input
config disagree on their sorted feature-key lists, `__init__` fails and no
registry is produced. -/
theorem registry_feature_key_consistency (cfg : RegistryConfig) :
    (∀ r, ModelRegistry.init cfg = .ok r →
       ∀ m1 ∈ r.cfg.models, ∀ m2 ∈ r.cfg.models, featureKeySig m1 = featureKeySig m2) ∧
    (∀ m1 ∈ cfg.models, ∀ m2 ∈ cfg.models,
       featureKeySig m1 ≠ featureKeySig m2 → (ModelRegistry.init cfg).isOk = false) := by
  constructor
  · intro r hr m1 h1 m2 h2
    rw [init_ok_cfg cfg r hr] at h1 h2
    have hok : (ModelRegistry.init cfg).isOk = true := by rw [hr]; rfl
    obtain ⟨-, -, hlen⟩ := (init_isOk cfg).mp hok
    exact dedup_length_one_all_eq _ hlen _ (List.mem_map_of_mem _ h1)
      _ (List.mem_map_of_mem _ h2)
  · intro m1 h1 m2 h2 hne
    cases hok : (ModelRegistry.init cfg).isOk
    · rfl
    · obtain ⟨-, -, hlen⟩ := (init_isOk cfg).mp hok
      exact absurd (dedup_length_one_all_eq _ hlen _ (List.mem_map_of_mem _ h1)
        _ (List.mem_map_of_mem _ h2)) hne

/-- Witness for C2 at the one-model registry built by `__init__`. -/
theorem registry_feature_key_consistency_witness :
    featureKeySig exModel1 = featureKeySig exModel1 :=
  (registry_feature_key_consistency exCfg).1 exReg (by rfl)
    exModel1 (List.mem_singleton.mpr rfl) exModel1 (List.mem_singleton.mpr rfl)

/-- C3: for a model found by code, `resolve(code, feature=None)` returns the
stored `(base_url, base_model)`; for a supported feature with a non-empty
configured model, it returns `(feature.url, feature.model)` when the feature
has its own non-empty url, and `(base_url, feature.model)` when the feature
has no url of its own. -/
theorem resolve_returns_configured_pairs (r : ModelRegistry) (code : String)
    (m : ModelConfig) (h : r.get_by_code code = .ok m) :
    (r.resolve code none = .ok (m.base_url, m.base_model)) ∧
    (∀ X u mm, m.features.find? (fun p => p.1 == X) = some (X, ⟨true, some mm, some u⟩) →
       mm ≠ "" → u ≠ "" → r.resolve code (some X) = .ok (some u, mm)) ∧
    (∀ X mm, m.features.find? (fun p => p.1 == X) = some (X, ⟨true, some mm, none⟩) →
       mm ≠ "" → r.resolve code (some X) = .ok (m.base_url, mm)) := by
  have hres : ∀ f, r.resolve code f = m.resolve_endpoint f := by
    intro f
    unfold ModelRegistry.resolve
    rw [h]
    rfl
  refine ⟨?_, ?_, ?_⟩
  · rw [hres]
    rfl
  · intro X u mm hfind hmm hu
    rw [hres]
    have hmmE : mm.isEmpty = false := by
      cases hmc : mm.isEmpty
      · rfl
      · exact absurd ((String.isEmpty_iff mm).mp hmc) hmm
    have huE : u.isEmpty = false := by
      cases hub : u.isEmpty
      · rfl
      · exact absurd ((String.isEmpty_iff u).mp hub) hu
    simp only [ModelConfig.resolve_endpoint, hfind]
    simp [hmmE, huE, strTruthy]
  · intro X mm hfind hmm
    rw [hres]
    have hmmE : mm.isEmpty = false := by
      cases hmc : mm.isEmpty
      · rfl
      · exact absurd ((String.isEmpty_iff mm).mp hmc) hmm
    simp only [ModelConfig.resolve_endpoint, hfind]
    simp [hmmE, strTruthy]

/-- Witness for C3 at the deepseek example: base pair and the `deep_think`
feature with no url of its own. -/
theorem resolve_returns_configured_pairs_witness :
    exReg.resolve "deepseek" none = .ok (some "https://api.deepseek.com", "deepseek-chat") ∧
    exReg.resolve "deepseek" (some "deep_think")
      = .ok (exModel1.base_url, "deepseek-reasoner") :=
  ⟨(resolve_returns_configured_pairs exReg "deepseek" exModel1 (by rfl)).1,
   (resolve_returns_configured_pairs exReg "deepseek" exModel1 (by rfl)).2.2
     "deep_think" "deepseek-reasoner" (by rfl) (by decide)⟩

/-- C4: `resolve` raises `KeyError "Unknown model code"` for an absent code;
for a present code it raises `KeyError "Unknown feature"` when the feature is
absent from the feature map of the model, `ValueError "not supported"` when present with
`supported=false`, and `ValueError "model is null"` when supported with no
configured model; each case is an `Except.error`, so no value is returned. -/
theorem resolve_error_conditions (r : ModelRegistry) (code X : String) :
    (r.by_code.find? (fun p => p.1 == code) = none →
       ∀ f, r.resolve code f = .error (.keyError ("Unknown model code: " ++ code))) ∧
    (∀ m, r.get_by_code code = .ok m →
       ((m.features.find? (fun p => p.1 == X) = none →
           r.resolve code (some X)
             = .error (.keyError ("Unknown feature " ++ X ++ " for model " ++ m.code))) ∧
        (∀ fc, m.features.find? (fun p => p.1 == X) = some (X, fc) →
           fc.supported = false →
           r.resolve code (some X)
             = .error (.valueError ("Feature " ++ X ++ " not supported for model " ++ m.code))) ∧
        (∀ fc, m.features.find? (fun p => p.1 == X) = some (X, fc) →
           fc.supported = true → fc.model = none →
           r.resolve code (some X)
             = .error (.valueError
                 ("Feature " ++ X ++ " supported but model is null for " ++ m.code))))) := by
  constructor
  · intro hnone f
    unfold ModelRegistry.resolve ModelRegistry.get_by_code
    rw [hnone]
    rfl
  · intro m hm
    have hres : r.resolve code (some X) = m.resolve_endpoint (some X) := by
      unfold ModelRegistry.resolve
      rw [hm]
      rfl
    refine ⟨?_, ?_, ?_⟩
    · intro hfind
      rw [hres]
      simp only [ModelConfig.resolve_endpoint, hfind]
    · intro fc hfind hsup
      rw [hres]
      simp only [ModelConfig.resolve_endpoint, hfind]
      simp [hsup]
    · intro fc hfind hsup hmodel
      rw [hres]
      simp only [ModelConfig.resolve_endpoint, hfind]
      simp [hsup, hmodel]

/-- Witness for C4: all four error cases at the demo registry. -/
theorem resolve_error_conditions_witness :
    exReg2.resolve "missing" none
      = .error (.keyError ("Unknown model code: " ++ "missing")) ∧
    exReg2.resolve "demo" (some "strange")
      = .error (.keyError ("Unknown feature " ++ "strange" ++ " for model " ++ exModel2.code)) ∧
    exReg2.resolve "demo" (some "tool_calls")
      = .error (.valueError
          ("Feature " ++ "tool_calls" ++ " not supported for model " ++ exModel2.code)) ∧
    exReg2.resolve "demo" (some "json_output")
      = .error (.valueError
          ("Feature " ++ "json_output" ++ " supported but model is null for " ++ exModel2.code)) :=
  ⟨(resolve_error_conditions exReg2 "missing" "x").1 (by rfl) none,
   ((resolve_error_conditions exReg2 "demo" "strange").2 exModel2 (by rfl)).1 (by rfl),
   ((resolve_error_conditions exReg2 "demo" "tool_calls").2 exModel2 (by rfl)).2.1
     ⟨false, none, none⟩ (by rfl) rfl,
   ((resolve_error_conditions exReg2 "demo" "json_output").2 exModel2 (by rfl)).2.2
     ⟨true, none, none⟩ (by rfl) rfl rfl⟩

/-- C5 counterexample: the entry whose `id` holds the Python boolean `True`
passes validation — `isinstance(True, int)` is true because `bool` is a
subclass of `int` — refuting "a boolean value is never accepted where an int
is required". -/
theorem from_dict_accepts_bool_id :
    ModelConfig.from_dict (.vdict exEntryBoolIdDict) "models[0]" = .ok exModel1 := by rfl

/-- C5 (amended): validation performs exact type checks with no coercion for
string and bool fields (absent, empty or non-string values for a required
string field fail; non-bool values for a required bool field fail; values
that are neither int nor bool fail for an int field), except that a boolean
is accepted where an int is required — Python `bool` is a subclass of `int`
— and is stored as 1 or 0. -/
theorem from_dict_type_checks (d : List (String × Val)) (ctx : String) :
    (∀ key ∈ ["name", "code", "base_model", "charge_url", "docs_url"],
       isNonEmptyStr (dget d key) = false →
       (ModelConfig.from_dict (.vdict d) ctx).isOk = false) ∧
    (isBoolV (dget d "url_requirements") = false →
       (ModelConfig.from_dict (.vdict d) ctx).isOk = false) ∧
    (isIntPy (dget d "id") = false →
       (ModelConfig.from_dict (.vdict d) ctx).isOk = false) ∧
    (∀ b, dget d "id" = .vbool b →
       ∀ m, ModelConfig.from_dict (.vdict d) ctx = .ok m → m.id = if b then 1 else 0) := by
  refine ⟨?_, ?_, ?_, ?_⟩
  · intro key hkey hstr
    rw [modelConfig_from_dict_isOk]
    simp only [List.mem_cons, List.mem_singleton, List.not_mem_nil, or_false] at hkey
    rcases hkey with rfl | rfl | rfl | rfl | rfl <;> simp [entryFieldsOk, hstr]
  · intro hurl
    rw [modelConfig_from_dict_isOk]
    simp [entryFieldsOk, hurl]
  · intro hid
    rw [modelConfig_from_dict_isOk]
    simp [entryFieldsOk, hid]
  · intro b hb m hm
    obtain ⟨hid, -⟩ := modelConfig_from_dict_ok_val d ctx m hm
    rw [hid, hb]
    rfl

/-- Witness for the amended C5 theorem: the empty entry fails (its `name` is
absent), and the boolean id in `exEntryBoolIdDict` is accepted as 1. -/
theorem from_dict_type_checks_witness :
    (ModelConfig.from_dict (.vdict []) "models[0]").isOk = false ∧
    exModel1.id = if true then 1 else 0 :=
  ⟨(from_dict_type_checks [] "models[0]").1 "name" (by decide) (by rfl),
   (from_dict_type_checks exEntryBoolIdDict "models[0]").2.2.2 true (by rfl)
     exModel1 (by rfl)⟩

/-- C6: an entry with `url_requirements` true and a null or empty `base_url`
fails at validation time (`ModelConfig.from_dict` raises), and every
`ModelConfig` that validation produces with `url_requirements` true carries a
non-null, non-empty `base_url`, so the violation can never surface later
during `resolve`. -/
theorem url_requirement_validation (d : List (String × Val)) (ctx : String) :
    ((dget d "url_requirements" = .vbool true) →
       (dget d "base_url" = .vnull ∨ dget d "base_url" = .vstr "") →
       (ModelConfig.from_dict (.vdict d) ctx).isOk = false) ∧
    (∀ m, ModelConfig.from_dict (.vdict d) ctx = .ok m →
       m.url_requirements = true → ∃ s, m.base_url = some s ∧ s ≠ "") := by
  constructor
  · intro hreq hnull
    rw [modelConfig_from_dict_isOk]
    have hfalse : entryUrlReqOk (.vdict d) = false := by
      simp only [entryUrlReqOk, hreq]
      rcases hnull with hx | hx <;> simp [hx, optStrOf, strTruthy]
      rfl
    simp [hfalse]
  · intro m hm hreq
    obtain ⟨-, -, -, -, -, -, -, hchk⟩ := modelConfig_from_dict_ok_val d ctx m hm
    rw [hreq] at hchk
    simp only [Bool.true_and, Bool.not_eq_false] at hchk
    cases hb : m.base_url with
    | none =>
      rw [hb] at hchk
      simp [strTruthy] at hchk
    | some s =>
      rw [hb] at hchk
      refine ⟨s, rfl, ?_⟩
      intro hse
      rw [hse] at hchk
      simp only [strTruthy] at hchk
      exact absurd hchk (by decide)

/-- Witness for C6: the null-`base_url` entry fails, and the parsed deepseek
model carries its non-empty `base_url`. -/
theorem url_requirement_validation_witness :
    (ModelConfig.from_dict (.vdict exEntryNullUrlDict) "models[0]").isOk = false ∧
    (∃ s, exModel1.base_url = some s ∧ s ≠ "") :=
  ⟨(url_requirement_validation exEntryNullUrlDict "models[0]").1 (by rfl) (Or.inl (by rfl)),
   (url_requirement_validation exEntryDict "models[0]").2 exModel1 (by rfl) rfl⟩

/-- C7: `from_code` is total — it returns the unique member whose code
matches exactly, and the Chinese-Simplified member when no code matches; in
particular `from_code "zz-invalid"` defaults, `from_code "fr"` returns the
French member, and the French system prompt is the expected string. -/
theorem from_code_exact_or_default (s : String) :
    (∀ l : OptionLanguage, l.code = s → OptionLanguage.from_code s = l) ∧
    ((∀ l : OptionLanguage, l.code ≠ s) →
       OptionLanguage.from_code s = .CHINESE_SIMPLIFIED) ∧
    OptionLanguage.from_code "zz-invalid" = .CHINESE_SIMPLIFIED ∧
    OptionLanguage.from_code "fr" = .FRENCH ∧
    OptionLanguage.FRENCH.system_prompt = "Reply strictly in Français (fr)." := by
  have hmem : ∀ l : OptionLanguage, l ∈ OptionLanguage.members := by
    intro l
    cases l <;> decide
  have hnd : (OptionLanguage.members.map OptionLanguage.code).Nodup := by decide
  refine ⟨?_, ?_, by rfl, by rfl, by rfl⟩
  · intro l hcode
    unfold OptionLanguage.from_code
    cases hf : OptionLanguage.members.find? (fun item => item.code == s) with
    | none =>
      have hno := List.find?_eq_none.mp hf l (hmem l)
      rw [hcode] at hno
      simp at hno
    | some l2 =>
      have h1 := List.find?_some hf
      have h2 : l2 ∈ OptionLanguage.members := List.mem_of_find?_eq_some hf
      have hcodes : l2.code = l.code := by
        rw [hcode]
        exact beq_iff_eq.mp h1
      exact List.inj_on_of_nodup_map hnd h2 (hmem l) hcodes
  · intro hall
    unfold OptionLanguage.from_code
    cases hf : OptionLanguage.members.find? (fun item => item.code == s) with
    | none => rfl
    | some l2 =>
      have h1 := List.find?_some hf
      exact absurd (beq_iff_eq.mp h1) (hall l2)

/-- Witness for C7 at the French code. -/
theorem from_code_exact_or_default_witness :
    OptionLanguage.from_code "fr" = .FRENCH :=
  (from_code_exact_or_default "fr").1 .FRENCH (by rfl)

/-- C8: a supported feature with a non-empty configured model and an
empty-string url resolves to `(base_url, feature.model)` — the fallback
`feat.url if feat.url else self.base_url` tests truthiness, so an empty
string behaves like an absent url. -/
theorem resolve_endpoint_empty_url_falls_back (m : ModelConfig) (X mm : String)
    (hfind : m.features.find? (fun p => p.1 == X) = some (X, ⟨true, some mm, some ""⟩))
    (hmm : mm ≠ "") :
    m.resolve_endpoint (some X) = .ok (m.base_url, mm) := by
  have hmmE : mm.isEmpty = false := by
    cases hmc : mm.isEmpty
    · rfl
    · exact absurd ((String.isEmpty_iff mm).mp hmc) hmm
  have hemp : ("" : String).isEmpty = true := rfl
  simp only [ModelConfig.resolve_endpoint, hfind]
  simp [hmmE, strTruthy, hemp]

/-- Witness for C8: the `mini_version` feature of the demo model has url `""` and
falls back to the base url (`none`). -/
theorem resolve_endpoint_empty_url_falls_back_witness :
    exModel2.resolve_endpoint (some "mini_version") = .ok (exModel2.base_url, "mini-model") :=
  resolve_endpoint_empty_url_falls_back exModel2 "mini_version" "mini-model"
    (by rfl) (by decide)

/-- C9: a supported feature whose configured model is the empty string is
rejected with the "model is null" error, exactly like a null model — the
check `if not feat.model` tests truthiness, so `""` is treated as absent. -/
theorem resolve_endpoint_empty_model_rejected (m : ModelConfig) (X : String)
    (u : Option String)
    (hfind : m.features.find? (fun p => p.1 == X) = some (X, ⟨true, some "", u⟩)) :
    m.resolve_endpoint (some X)
      = .error (.valueError ("Feature " ++ X ++ " supported but model is null for " ++ m.code)) := by
  have hemp : ("" : String).isEmpty = true := rfl
  simp only [ModelConfig.resolve_endpoint, hfind]
  simp [hemp]

/-- Witness for C9: the `deep_think` feature of the demo model has model `""` and
is rejected. -/
theorem resolve_endpoint_empty_model_rejected_witness :
    exModel2.resolve_endpoint (some "deep_think")
      = .error (.valueError
          ("Feature " ++ "deep_think" ++ " supported but model is null for " ++ exModel2.code)) :=
  resolve_endpoint_empty_model_rejected exModel2 "deep_think" none (by rfl)

/-- C10: `list_models` copies the stored sequence into a freshly allocated
list object (`return list(self._cfg.models)`), so its address differs from
the address of the stored list, and mutating the returned list leaves the stored
model sequence, the result of a subsequent `list_models`, and the
heap-independent `get_by_code`, `get_by_id` and `resolve` lookups unchanged. -/
theorem list_models_returns_fresh_list (h : PyHeap) (r : ModelRegistryRT)
    (hv : r.modelsAddr < h.next) :
    (r.list_models h).2 ≠ r.modelsAddr ∧
    (r.list_models h).1.read (r.list_models h).2 = h.read r.modelsAddr ∧
    (∀ v : List ModelConfig,
      (((r.list_models h).1.write (r.list_models h).2 v).read r.modelsAddr
         = h.read r.modelsAddr) ∧
      ((r.list_models (((r.list_models h).1.write (r.list_models h).2 v))).1.read
          (r.list_models (((r.list_models h).1.write (r.list_models h).2 v))).2
         = h.read r.modelsAddr) ∧
      (∀ code, r.get_by_code (((r.list_models h).1.write (r.list_models h).2 v)) code
         = r.get_by_code h code) ∧
      (∀ i, r.get_by_id (((r.list_models h).1.write (r.list_models h).2 v)) i
         = r.get_by_id h i) ∧
      (∀ code f, r.resolve (((r.list_models h).1.write (r.list_models h).2 v)) code f
         = r.resolve h code f)) := by
  have hne : r.modelsAddr ≠ h.next := Nat.ne_of_lt hv
  refine ⟨?_, ?_, ?_⟩
  · simp only [ModelRegistryRT.list_models, PyHeap.alloc]
    exact fun hc => hne hc.symm
  · simp [ModelRegistryRT.list_models, PyHeap.alloc, PyHeap.read]
  · intro v
    refine ⟨?_, ?_, fun code => rfl, fun i => rfl, fun code f => rfl⟩
    · simp [ModelRegistryRT.list_models, PyHeap.alloc, PyHeap.read, PyHeap.write, hne]
    · simp [ModelRegistryRT.list_models, PyHeap.alloc, PyHeap.read, PyHeap.write, hne]

/-- Witness for C10 at the one-cell heap. -/
theorem list_models_returns_fresh_list_witness :
    (exRegRT.list_models exHeap).2 ≠ exRegRT.modelsAddr :=
  (list_models_returns_fresh_list exHeap exRegRT (by decide)).1
